import Mathlib

/-!
Verification of the dataset-generation core of the prompt-distillation
repository.  The definitions embed, in order:

* the list toolkit used by the consensus reconciler;
* the response parsers `extract_response` (openai_gpt.py) and
  `response_mining` (classify.py);
* the generator constructor `OpenAIDatasetGenerator.__init__`;
* `generate_prompt` and the state machine of `generate_dataset_split`
  from openai_gpt.py, with API outcomes supplied as an explicit trace;
* the consensus reconciler and the filter-enabled controller, which are
  exercised by the repository's tests but whose implementation is not
  shipped under src/, and are therefore modelled from the specification.
-/

namespace PromptDistill

/-- A raw generated example: one (input_text, output_text) pair, as produced
by a successfully parsed API response. -/
structure RawExample where
  input : String
  output : String
deriving DecidableEq, Repr

/-- Number of occurrences of a string in a list. -/
def countOcc (l : List String) (o : String) : Nat :=
  (l.filter (fun x => decide (x = o))).length

/-- Position of the first occurrence of a string in a list
(the list's length when the string is absent). -/
def firstIdx : List String → String → Nat
  | [], _ => 0
  | x :: rest, o => if x = o then 0 else firstIdx rest o + 1

/-- Modelled from the spec: first-seen-order deduplication, keeping the first
occurrence of each element not already seen, as required by the Consensus
Reconciler ("preserving first-seen order of distinct input_texts"). -/
def dedupFirstAux (seen : List String) : List String → List String
  | [] => []
  | x :: rest =>
    if x ∈ seen then dedupFirstAux seen rest
    else x :: dedupFirstAux (x :: seen) rest

/-- Modelled from the spec: first-seen-order deduplication of a list. -/
def dedupFirst (l : List String) : List String :=
  dedupFirstAux [] l

/-- JSON leaf values appearing in modelled API response bodies. -/
inductive JVal where
  | str (s : String)
  | int (n : Int)
deriving DecidableEq, Repr

/-- The content of one completion, after an attempted `json.loads`: either
malformed JSON or a JSON object given as an ordered key/value list. -/
inductive Content where
  | malformed
  | obj (kvs : List (String × JVal))
deriving DecidableEq, Repr

/-- The exceptions `extract_response` can raise: the re-raised
`json.decoder.JSONDecodeError`, and the `AssertionError` of the
missing-keys assertion. -/
inductive ExtractError where
  | jsonDecodeError
  | assertionError
deriving DecidableEq, Repr

/-- Python `str()` applied to a JSON leaf value (total). -/
def jvalToString : JVal → String
  | .str s => s
  | .int n => toString n

/-- Whether a key is present in a JSON object (`key in response_json`). -/
def hasKey (kvs : List (String × JVal)) (k : String) : Bool :=
  decide (k ∈ kvs.map Prod.fst)

/-- Dictionary lookup of a key known to be present (defaulting when absent). -/
def lookupKey (kvs : List (String × JVal)) (k : String) : JVal :=
  match kvs.find? (fun kv => decide (kv.fst = k)) with
  | some kv => kv.snd
  | none => .str ""

/-- The `missing_keys` list of `extract_response`:
`[key for key in required_keys if key not in response_json]`. -/
def missing_keys (kvs : List (String × JVal)) : List String :=
  (["input", "output"]).filter (fun k => !hasKey kvs k)

/-- Embedding of `OpenAIDatasetGenerator.extract_response` (openai_gpt.py):
malformed JSON re-raises the decode error; a missing `input`/`output` key
fails the assertion; otherwise both values are `str(...).strip()`-ed. -/
def extract_response (c : Content) : Except ExtractError (String × String) :=
  match c with
  | .malformed => .error .jsonDecodeError
  | .obj kvs =>
    if missing_keys kvs = [] then
      .ok ((jvalToString (lookupKey kvs "input")).trim,
           (jvalToString (lookupKey kvs "output")).trim)
    else .error .assertionError

/-- Whether the character list `n` is an initial segment of `h`. -/
def strStartsWith : List Char → List Char → Bool
  | [], _ => true
  | _ :: _, [] => false
  | a :: as, b :: bs => a == b && strStartsWith as bs

/-- Whether the character list `n` occurs contiguously inside `h`. -/
def hasSubAux (n : List Char) : List Char → Bool
  | [] => n.isEmpty
  | c :: t => strStartsWith n (c :: t) || hasSubAux n t

/-- Python's `needle in hay` on strings. -/
def strContains (hay needle : String) : Bool :=
  hasSubAux needle.data hay.data

/-- Python's `str.lower()`. -/
def strLower (s : String) : String :=
  String.mk (s.data.map Char.toLower)

/-- Python's `int(...)` on a JSON leaf value, `none` when it raises. -/
def pyToInt : JVal → Option Int
  | .int n => some n
  | .str s => s.trim.toInt?

/-- Python truthiness of a JSON leaf value. -/
def pyTruthy : JVal → Bool
  | .str s => decide (s ≠ "")
  | .int n => decide (n ≠ 0)

/-- The key scan of `response_mining` (classify.py): the last key containing
"comment" sets the example, the last key containing "label" sets the label via
`int(...)`; a failing conversion raises (modelled as `Except.error`). -/
def mining_loop : List (String × JVal) → Option JVal → Int → Except Unit (Option JVal × Int)
  | [], g, l => .ok (g, l)
  | (k, v) :: rest, g, l =>
    if strContains (strLower k) "comment" then mining_loop rest (some v) l
    else if strContains (strLower k) "label" then
      match pyToInt v with
      | some n => mining_loop rest g n
      | none => .error ()
    else mining_loop rest g l

/-- Embedding of `ClassifyTaskGenerator.response_mining` (classify.py): any
caught exception and any falsy extracted value yields the sentinel
`("", -1)`; otherwise the `(generated_example, pseudo_label)` pair. -/
def response_mining (c : Content) : JVal × Int :=
  match c with
  | .malformed => (.str "", -1)
  | .obj kvs =>
    match mining_loop kvs none (-1) with
    | .error _ => (.str "", -1)
    | .ok (none, _) => (.str "", -1)
    | .ok (some g, l) => if pyTruthy g && decide (l ≠ 0) then (g, l) else (.str "", -1)

/-- The errors `OpenAIDatasetGenerator.__init__` can raise: the `KeyError`
of `os.environ["OPENAI_API_KEY"]` on a missing variable, and the
`AssertionError` of the two constructor assertions. -/
inductive InitError where
  | keyError
  | assertionError
deriving DecidableEq, Repr

/-- The configuration stored by a successfully constructed generator. -/
structure GeneratorConfig where
  api_key : String
  max_api_calls : Option Int
deriving DecidableEq, Repr

/-- Python truthiness of an optional string (`None` and `""` are falsy). -/
def pyTruthyStr : Option String → Bool
  | none => false
  | some s => decide (s ≠ "")

/-- Embedding of `OpenAIDatasetGenerator.__init__` (openai_gpt.py):
`self.api_key = api_key if api_key else os.environ["OPENAI_API_KEY"]`
(raising `KeyError` when the variable is absent), the assertion that the
key is non-empty, and `if max_api_calls: assert max_api_calls > 0`. -/
def openai_dataset_generator_init (api_key : Option String) (env_key : Option String)
    (max_api_calls : Option Int) : Except InitError GeneratorConfig :=
  match (if pyTruthyStr api_key then Except.ok (api_key.getD "") else
          match env_key with
          | some e => Except.ok e
          | none => Except.error InitError.keyError : Except InitError String) with
  | .error e => .error e
  | .ok key =>
    if key = "" then .error .assertionError
    else
      match max_api_calls with
      | none => .ok ⟨key, none⟩
      | some m =>
        if m ≠ 0 then
          if m > 0 then .ok ⟨key, some m⟩ else .error .assertionError
        else .ok ⟨key, some m⟩

/-- One outcome of a dispatched API call inside `generate_dataset_split`:
either a completion that parses to an example, or an error of one of the
retryable classes `OPENAI_ERRORS`. -/
inductive ApiOutcome where
  | success (input_col output_col : String)
  | retryableError
deriving DecidableEq, Repr

/-- The mutable state of one run of `generate_dataset_split`
(openai_gpt.py): the API-call counter, the accumulated columns, and the
recent-examples context window. -/
structure GenState where
  api_call_counter : Nat
  input_cols : List String
  output_cols : List String
  recent_10_generated_examples : List RawExample
deriving DecidableEq, Repr

/-- The state of a freshly constructed generator. -/
def initState : GenState :=
  ⟨0, [], [], []⟩

/-- The guard `self.max_api_calls and self.api_call_counter >= self.max_api_calls`:
`None` and `0` are falsy, so they disable the budget entirely. -/
def budgetReached (max_api_calls : Option Int) (counter : Nat) : Bool :=
  match max_api_calls with
  | none => false
  | some m => decide (m ≠ 0) && decide ((counter : Int) ≥ m)

/-- The context-window update of `generate_dataset_split`: when the window
already holds 10 entries `pop(0)` evicts the front, then the new example is
appended at the back. -/
def updateWindow (w : List RawExample) (e : RawExample) : List RawExample :=
  (if w.length = 10 then w.drop 1 else w) ++ [e]

/-- Recording one successfully parsed example: append to both columns, check
the assertion `0 <= len(window) <= 10` (a failing assertion aborts the run,
modelled as `none`), and update the window. -/
def recordExample (st : GenState) (i o : String) : Option GenState :=
  if st.recent_10_generated_examples.length ≤ 10 then
    some { st with
      input_cols := st.input_cols ++ [i],
      output_cols := st.output_cols ++ [o],
      recent_10_generated_examples := updateWindow st.recent_10_generated_examples ⟨i, o⟩ }
  else none

/-- Modelled from the spec: `handle_openai_error` lives in
`prompt2model/utils`, which is not under src/; per §4.1.d the handler applies
a backoff delay and returns `api_call_counter` unchanged ("without
incrementing api_call_counter a second time"). -/
def handle_openai_error (counter : Nat) : Nat :=
  counter

/-- Result of the inner `while True` loop of `generate_dataset_split`:
either the budget-exhaustion early return with the state as it stands, or a
successful example with the unconsumed remainder of the outcome trace. -/
inductive InnerRes where
  | finished (st : GenState)
  | ok (st : GenState) (rest : List ApiOutcome)
deriving DecidableEq, Repr

/-- The generator state carried by an inner-loop result. -/
def innerResState : InnerRes → GenState
  | .finished st => st
  | .ok st _ => st

/-- Embedding of the inner `while True` loop of `generate_dataset_split`
(openai_gpt.py): check the budget before dispatching (returning the current
columns when it is reached), otherwise increment the counter, dispatch (the
next trace entry is the outcome), record a parsed example and `break`, or
catch a retryable error with `handle_openai_error` and loop.  An exhausted
trace models a run that never terminates, returned as `none`. -/
def innerLoop (max_api_calls : Option Int) (st : GenState) :
    List ApiOutcome → Option InnerRes
  | [] =>
    if budgetReached max_api_calls st.api_call_counter then some (.finished st) else none
  | o :: rest =>
    if budgetReached max_api_calls st.api_call_counter then some (.finished st)
    else
      let st1 : GenState := { st with api_call_counter := st.api_call_counter + 1 }
      match o with
      | .success i out => (recordExample st1 i out).map (fun st2 => InnerRes.ok st2 rest)
      | .retryableError =>
        innerLoop max_api_calls
          { st1 with api_call_counter := handle_openai_error st1.api_call_counter } rest

/-- Embedding of `generate_dataset_split` (openai_gpt.py): the outer
`for _ in range(num_examples)` loop around the inner retry loop.  Returns the
final state at the function's return point (`none` models a diverging or
crashed run). -/
def generate_dataset_split (max_api_calls : Option Int) :
    Nat → GenState → List ApiOutcome → Option GenState
  | 0, st, _ => some st
  | n + 1, st, trace =>
    match innerLoop max_api_calls st trace with
    | none => none
    | some (.finished st1) => some st1
    | some (.ok st1 rest) => generate_dataset_split max_api_calls n st1 rest

/-- The validity test on the user's few-shot seed used twice by
`generate_prompt`: `is not None and != "N/A" and != ""`. -/
def fewShotValid : Option String → Bool
  | none => false
  | some s => decide (s ≠ "N/A") && decide (s ≠ "")

/-- The template selection of `generate_prompt`: 0–3 sampled examples give
"COMPLEX", 4–7 give "MIDDLE", more give "SIMPLE". -/
def templateTypeOf (n : Nat) : String :=
  if n ≤ 3 then "COMPLEX" else if n ≤ 7 then "MIDDLE" else "SIMPLE"

/-- Modelled from the spec: `construct_meta_prompt` lives in
`openai_gpt_template.py`, which is not under src/; per §4.1.b the prompt is a
total function combining the template type, the instruction, and the example
context string with explicit slot markers. -/
def construct_meta_prompt (instruction : String) (few_shot_example_string : String)
    (template_type : String) : String :=
  "template=" ++ template_type ++ "\ninstruction=" ++ instruction
    ++ "\nexamples:\n" ++ few_shot_example_string ++ "input=\"\"\noutput=\"\"\n"

/-- The line `f"input=\"...\"\noutput=\"...\"\n"` appended for one sampled
example in `generate_prompt`. -/
def exampleLine (e : RawExample) : String :=
  "input=\"" ++ e.input ++ "\"\noutput=\"" ++ e.output ++ "\"\n"

/-- The loop of `generate_prompt` building `random_example_string`: each
sampled example's line, with the user's few-shot seed spliced in right after
the example whose index equals `user_examples_insert_index` when the seed is
valid. -/
def buildExampleString (sample : List RawExample) (few_shot_example_string : Option String)
    (insertIdx : Nat) : String :=
  (sample.enum.map (fun p =>
    exampleLine p.2 ++
      (if decide (p.1 = insertIdx) && fewShotValid few_shot_example_string then
        few_shot_example_string.getD "" ++ "\n" else ""))).foldl (· ++ ·) ""

/-- Number of loop iterations of `buildExampleString` that splice the seed
in: the indices of the sample at which the insertion condition fires. -/
def seedInsertions (len insertIdx : Nat) (few_shot_example_string : Option String) : Nat :=
  ((List.range len).filter (fun i =>
    decide (i = insertIdx) && fewShotValid few_shot_example_string)).length

/-- Embedding of `OpenAIDatasetGenerator.generate_prompt` (openai_gpt.py).
The random draws are passed explicitly: `num` for
`random.randint(1, len(window))`, `sample` for `random.sample(window, num)`,
and `insertIdx` for `random.randint(0, len(sample) - 1)`; `none` models the
runtime error those library calls raise when invoked outside their
contracts. -/
def generate_prompt (instruction : String) (few_shot_example_string : Option String)
    (window : List RawExample) (num : Nat) (sample : List RawExample)
    (insertIdx : Nat) : Option (String × String) :=
  if window.length = 0 then
    let random_example_string :=
      if fewShotValid few_shot_example_string then
        few_shot_example_string.getD "" ++ "\n"
      else "N/A\n"
    some (construct_meta_prompt instruction random_example_string (templateTypeOf 0),
          random_example_string)
  else
    if num < 1 ∨ window.length < num then none
    else if sample.length ≠ num then none
    else if sample.length = 0 then none
    else
      let random_example_string := buildExampleString sample few_shot_example_string insertIdx
      some (construct_meta_prompt instruction random_example_string (templateTypeOf num),
            random_example_string)

/-- The outputs observed for one input, in order of appearance among the raw
examples. -/
def outputsFor (ex : List RawExample) (i : String) : List String :=
  (ex.filter (fun e => decide (e.input = i))).map RawExample.output

/-- Modelled from the spec: the highest occurrence count among the outputs of
one input's group (the multi-vote maximum of §4.2). -/
def maxCount (outs : List String) : Nat :=
  outs.foldr (fun o m => Nat.max (countOcc outs o) m) 0

/-- Modelled from the spec: §4.2's selection — "the output_text with the
highest count; tie-break deterministically by the output_text's first-seen
order within its group".  Scanning the group left to right, the first
element whose count is maximal is exactly the tied candidate that appeared
earliest. -/
def chooseOutput (outs : List String) : String :=
  match outs.find? (fun o => decide (countOcc outs o = maxCount outs)) with
  | some o => o
  | none => ""

/-- Modelled from the spec: the Consensus Reconciler of §4.2
(`apply_multi_vote_to_construct_generated_dataset` together with
`construct_input_output_map`, not under src/): group the raw examples by
input in first-seen order and emit one row per distinct input with its
majority-vote output. -/
def reconcile (ex : List RawExample) : List RawExample :=
  (dedupFirst (ex.map RawExample.input)).map
    (fun i => ⟨i, chooseOutput (outputsFor ex i)⟩)

/-- Modelled from the spec: the InputOutputMap of §3 — for each distinct
input in first-seen order, the count of each distinct output observed for
it, outputs in first-seen order (`construct_input_output_map`, not under
src/). -/
def construct_input_output_map (ex : List RawExample) :
    List (String × List (String × Nat)) :=
  (dedupFirst (ex.map RawExample.input)).map
    (fun i => (i, (dedupFirst (outputsFor ex i)).map
      (fun o => (o, countOcc (outputsFor ex i) o))))

/-- Modelled from the spec: `convert_generated_examples_to_generated_dataset`
(not under src/) — with `filter_duplicated_examples=True` the reconciler runs;
disabled, every raw example becomes its own row (§6). -/
def convert_generated_examples_to_generated_dataset
    (filter_duplicated_examples : Bool) (generated_examples : List RawExample) :
    List RawExample :=
  if filter_duplicated_examples then reconcile generated_examples else generated_examples

/-- Modelled from the spec: `save(split_id, raw_examples)` of the Example
Cache (§4.5) persists the raw-example sequence verbatim as one artifact. -/
def cacheSave (raw_examples : List RawExample) : List RawExample :=
  raw_examples

/-- Modelled from the spec: `load(split_id)` of the Example Cache (§4.5)
returns the persisted raw-example sequence. -/
def cacheLoad (artifact : List RawExample) : List RawExample :=
  artifact

/-- The per-split state of the filter-enabled Generation Controller:
accumulated raw examples and the API-call counter. -/
structure FilterGenState where
  generated_examples : List RawExample
  api_call_counter : Nat
deriving DecidableEq, Repr

/-- Modelled from the spec: the loop of the filter-enabled
`generate_dataset_split` (§4.1, not under src/) — each round recomputes the
reconciled dataset, exits when the target is met or the budget is reached,
and otherwise dispatches one batch call (the next trace entry holds the
parsed examples it yields), charging the counter once per batch.  An
exhausted trace is returned as `none`. -/
def specFilterLoop (expected_num_examples : Nat) (max_api_calls : Option Int) :
    List (List RawExample) → FilterGenState →
    Option (List RawExample × FilterGenState)
  | [], st =>
    if expected_num_examples ≤ (reconcile st.generated_examples).length then
      some (reconcile st.generated_examples, st)
    else if budgetReached max_api_calls st.api_call_counter then
      some (reconcile st.generated_examples, st)
    else none
  | batch :: rest, st =>
    if expected_num_examples ≤ (reconcile st.generated_examples).length then
      some (reconcile st.generated_examples, st)
    else if budgetReached max_api_calls st.api_call_counter then
      some (reconcile st.generated_examples, st)
    else
      specFilterLoop expected_num_examples max_api_calls rest
        ⟨st.generated_examples ++ batch, st.api_call_counter + 1⟩

/-! ### Helper lemmas -/

theorem le_foldr_max (f : String → Nat) (l : List String) (x : String) (hx : x ∈ l) :
    f x ≤ l.foldr (fun o m => Nat.max (f o) m) 0 := by
  induction l with
  | nil => cases hx
  | cons y rest ih =>
    rcases List.mem_cons.mp hx with rfl | h
    · exact Nat.le_max_left _ _
    · exact Nat.le_trans (ih h) (Nat.le_max_right _ _)

theorem foldr_max_attained (f : String → Nat) :
    ∀ l : List String, l ≠ [] →
      ∃ x, x ∈ l ∧ f x = l.foldr (fun o m => Nat.max (f o) m) 0 := by
  intro l
  induction l with
  | nil => intro h; exact absurd rfl h
  | cons y rest ih =>
    intro _
    by_cases hr : rest = []
    · subst hr
      exact ⟨y, List.mem_cons_self y [], by simp⟩
    · obtain ⟨x, hxmem, hxeq⟩ := ih hr
      rcases Nat.le_total (rest.foldr (fun o m => Nat.max (f o) m) 0) (f y) with hle | hle
      · exact ⟨y, List.mem_cons_self y rest, (Nat.max_eq_left hle).symm⟩
      · refine ⟨x, List.mem_cons_of_mem _ hxmem, ?_⟩
        show f x = max (f y) (rest.foldr (fun o m => Nat.max (f o) m) 0)
        rw [max_eq_right hle, hxeq]

theorem countOcc_le_maxCount (outs : List String) (o : String) (h : o ∈ outs) :
    countOcc outs o ≤ maxCount outs :=
  le_foldr_max (countOcc outs) outs o h

theorem find?_firstIdx_le (p : String → Bool) :
    ∀ (l : List String) (a : String), l.find? p = some a →
      ∀ b, b ∈ l → p b = true → firstIdx l a ≤ firstIdx l b := by
  intro l
  induction l with
  | nil => intro a ha; simp at ha
  | cons x rest ih =>
    intro a ha b hb hpb
    by_cases hx : p x = true
    · rw [List.find?_cons_of_pos _ hx] at ha
      cases ha
      simp [firstIdx]
    · rw [List.find?_cons_of_neg _ (by simpa using hx)] at ha
      have hpa : p a = true := List.find?_some ha
      have hax : ¬ x = a := fun h => hx (h ▸ hpa)
      have hbx : ¬ x = b := fun h => hx (h ▸ hpb)
      have hb' : b ∈ rest := by
        rcases List.mem_cons.mp hb with rfl | h
        · exact absurd rfl hbx
        · exact h
      simp only [firstIdx, if_neg hax, if_neg hbx]
      exact Nat.succ_le_succ (ih a ha b hb' hpb)

theorem chooseOutput_spec (outs : List String) (h : outs ≠ []) :
    chooseOutput outs ∈ outs
    ∧ countOcc outs (chooseOutput outs) = maxCount outs
    ∧ ∀ o', o' ∈ outs → countOcc outs o' = maxCount outs →
        firstIdx outs (chooseOutput outs) ≤ firstIdx outs o' := by
  obtain ⟨x, hxmem, hxeq⟩ := foldr_max_attained (countOcc outs) outs h
  obtain ⟨o, ho⟩ :
      ∃ o, outs.find? (fun o => decide (countOcc outs o = maxCount outs)) = some o := by
    cases hf : outs.find? (fun o => decide (countOcc outs o = maxCount outs)) with
    | some o => exact ⟨o, rfl⟩
    | none =>
      exfalso
      have hnone := List.find?_eq_none.mp hf x hxmem
      exact hnone (by simpa [maxCount] using hxeq)
  have hmem := List.mem_of_find?_eq_some ho
  have hcount : countOcc outs o = maxCount outs := by simpa using List.find?_some ho
  have hchoose : chooseOutput outs = o := by simp [chooseOutput, ho]
  rw [hchoose]
  exact ⟨hmem, hcount,
    fun o' ho' hc' => find?_firstIdx_le _ outs o ho o' ho' (by simpa using hc')⟩

theorem mem_dedupFirstAux (a : String) :
    ∀ (l : List String) (seen : List String),
      a ∈ dedupFirstAux seen l ↔ a ∈ l ∧ a ∉ seen := by
  intro l
  induction l with
  | nil => intro seen; simp [dedupFirstAux]
  | cons x rest ih =>
    intro seen
    by_cases hx : x ∈ seen
    · rw [dedupFirstAux, if_pos hx, ih]
      constructor
      · rintro ⟨h1, h2⟩; exact ⟨List.mem_cons_of_mem _ h1, h2⟩
      · rintro ⟨h1, h2⟩
        rcases List.mem_cons.mp h1 with rfl | h1
        · exact absurd hx h2
        · exact ⟨h1, h2⟩
    · rw [dedupFirstAux, if_neg hx]
      constructor
      · intro hmem
        rcases List.mem_cons.mp hmem with rfl | hmem
        · exact ⟨List.mem_cons_self _ _, hx⟩
        · obtain ⟨h1, h2⟩ := (ih (x :: seen)).mp hmem
          exact ⟨List.mem_cons_of_mem _ h1,
            fun hs => h2 (List.mem_cons_of_mem _ hs)⟩
      · rintro ⟨h1, h2⟩
        rcases List.mem_cons.mp h1 with rfl | h1
        · exact List.mem_cons_self _ _
        · by_cases hax : a = x
          · subst hax; exact List.mem_cons_self _ _
          · exact List.mem_cons_of_mem _ ((ih (x :: seen)).mpr
              ⟨h1, fun hs => (List.mem_cons.mp hs).elim hax h2⟩)

theorem mem_dedupFirst (a : String) (l : List String) :
    a ∈ dedupFirst l ↔ a ∈ l := by
  rw [dedupFirst, mem_dedupFirstAux]
  simp

theorem nodup_dedupFirstAux :
    ∀ (l : List String) (seen : List String), (dedupFirstAux seen l).Nodup := by
  intro l
  induction l with
  | nil => intro seen; simp [dedupFirstAux]
  | cons x rest ih =>
    intro seen
    by_cases hx : x ∈ seen
    · rw [dedupFirstAux, if_pos hx]; exact ih seen
    · rw [dedupFirstAux, if_neg hx]
      refine List.nodup_cons.mpr ⟨?_, ih (x :: seen)⟩
      intro hmem
      exact ((mem_dedupFirstAux x rest (x :: seen)).mp hmem).2 (List.mem_cons_self _ _)

theorem nodup_dedupFirst (l : List String) : (dedupFirst l).Nodup :=
  nodup_dedupFirstAux l []

theorem dedupFirstAux_eq_self :
    ∀ (l : List String) (seen : List String), l.Nodup → (∀ a ∈ l, a ∉ seen) →
      dedupFirstAux seen l = l := by
  intro l
  induction l with
  | nil => intro seen _ _; rfl
  | cons x rest ih =>
    intro seen hnodup hdisj
    have hx : x ∉ seen := hdisj x (List.mem_cons_self _ _)
    rw [dedupFirstAux, if_neg hx]
    congr 1
    refine ih (x :: seen) (List.nodup_cons.mp hnodup).2 ?_
    intro a ha hmem
    rcases List.mem_cons.mp hmem with rfl | hmem
    · exact (List.nodup_cons.mp hnodup).1 ha
    · exact hdisj a (List.mem_cons_of_mem _ ha) hmem

theorem dedupFirst_eq_self (l : List String) (h : l.Nodup) : dedupFirst l = l :=
  dedupFirstAux_eq_self l [] h (by simp)

theorem outputsFor_ne_nil (ex : List RawExample) (i : String)
    (h : i ∈ ex.map RawExample.input) : outputsFor ex i ≠ [] := by
  obtain ⟨e, he, hei⟩ := List.mem_map.mp h
  have hfil : e ∈ ex.filter (fun e => decide (e.input = i)) :=
    List.mem_filter.mpr ⟨he, by simpa using hei⟩
  exact List.ne_nil_of_mem (List.mem_map.mpr ⟨e, hfil, rfl⟩)

theorem reconcile_map_input (ex : List RawExample) :
    (reconcile ex).map RawExample.input = dedupFirst (ex.map RawExample.input) := by
  simp only [reconcile, List.map_map]
  have hcomp : (RawExample.input ∘ fun i =>
      ({ input := i, output := chooseOutput (outputsFor ex i) } : RawExample)) =
      fun i => i := rfl
  rw [hcomp]
  simp

theorem budgetReached_false_lt (N : Int) (hN : 0 < N) (c : Nat)
    (h : budgetReached (some N) c = false) : (c : Int) < N := by
  simp only [budgetReached, Bool.and_eq_false_iff, decide_eq_false_iff_not,
    not_not, ge_iff_le, not_le] at h
  rcases h with h | h
  · omega
  · exact h

theorem innerLoop_of_budget (max_api_calls : Option Int) (st : GenState)
    (trace : List ApiOutcome) (h : budgetReached max_api_calls st.api_call_counter = true) :
    innerLoop max_api_calls st trace = some (InnerRes.finished st) := by
  cases trace <;> simp [innerLoop, h]

theorem recordExample_fields (st : GenState) (i o : String) (st2 : GenState)
    (h : recordExample st i o = some st2) :
    st2.api_call_counter = st.api_call_counter
    ∧ st2.recent_10_generated_examples
        = updateWindow st.recent_10_generated_examples ⟨i, o⟩
    ∧ st.recent_10_generated_examples.length ≤ 10 := by
  unfold recordExample at h
  split at h
  · cases h
    exact ⟨rfl, rfl, by assumption⟩
  · cases h

theorem updateWindow_length_le (w : List RawExample) (e : RawExample)
    (h : w.length ≤ 10) : (updateWindow w e).length ≤ 10 := by
  rw [updateWindow]
  split
  · simp_all
  · simp only [List.length_append, List.length_cons, List.length_nil]
    omega

theorem innerLoop_counter_le (N : Int) (hN : 0 < N) :
    ∀ (trace : List ApiOutcome) (st : GenState),
      (st.api_call_counter : Int) ≤ N →
      ∀ r, innerLoop (some N) st trace = some r →
        ((innerResState r).api_call_counter : Int) ≤ N := by
  intro trace
  induction trace with
  | nil =>
    intro st hst r hr
    rw [innerLoop] at hr
    split at hr
    · cases hr; exact hst
    · cases hr
  | cons o rest ih =>
    intro st hst r hr
    rw [innerLoop] at hr
    split at hr
    · cases hr; exact hst
    · rename_i hbudget
      have hlt : (st.api_call_counter : Int) < N :=
        budgetReached_false_lt N hN _ (by simpa using hbudget)
      cases o with
      | success i out =>
        have hr' : Option.map (fun st2 => InnerRes.ok st2 rest)
            (recordExample { st with api_call_counter := st.api_call_counter + 1 } i out)
            = some r := hr
        rw [Option.map_eq_some'] at hr'
        obtain ⟨st2, hst2, rfl⟩ := hr'
        have := (recordExample_fields _ i out st2 hst2).1
        simp only [innerResState, this]
        push_cast
        omega
      | retryableError =>
        have hr' : innerLoop (some N)
            { st with api_call_counter := st.api_call_counter + 1 } rest = some r := hr
        refine ih _ ?_ r hr'
        push_cast
        omega

theorem innerLoop_window_le (max_api_calls : Option Int) :
    ∀ (trace : List ApiOutcome) (st : GenState),
      st.recent_10_generated_examples.length ≤ 10 →
      ∀ r, innerLoop max_api_calls st trace = some r →
        (innerResState r).recent_10_generated_examples.length ≤ 10 := by
  intro trace
  induction trace with
  | nil =>
    intro st hst r hr
    rw [innerLoop] at hr
    split at hr
    · cases hr; exact hst
    · cases hr
  | cons o rest ih =>
    intro st hst r hr
    rw [innerLoop] at hr
    split at hr
    · cases hr; exact hst
    · cases o with
      | success i out =>
        have hr' : Option.map (fun st2 => InnerRes.ok st2 rest)
            (recordExample { st with api_call_counter := st.api_call_counter + 1 } i out)
            = some r := hr
        rw [Option.map_eq_some'] at hr'
        obtain ⟨st2, hst2, rfl⟩ := hr'
        have hw := (recordExample_fields _ i out st2 hst2).2.1
        simp only [innerResState, hw]
        exact updateWindow_length_le _ _ hst
      | retryableError =>
        have hr' : innerLoop max_api_calls
            { st with api_call_counter := st.api_call_counter + 1 } rest = some r := hr
        exact ih { st with api_call_counter := st.api_call_counter + 1 } hst r hr'

theorem generate_dataset_split_counter_le (N : Int) (hN : 0 < N) :
    ∀ (n : Nat) (st : GenState) (trace : List ApiOutcome),
      (st.api_call_counter : Int) ≤ N →
      ∀ st', generate_dataset_split (some N) n st trace = some st' →
        (st'.api_call_counter : Int) ≤ N := by
  intro n
  induction n with
  | zero =>
    intro st trace hst st' h
    cases h
    exact hst
  | succ n ih =>
    intro st trace hst st' h
    rw [generate_dataset_split] at h
    cases hr : innerLoop (some N) st trace with
    | none => rw [hr] at h; cases h
    | some r =>
      rw [hr] at h
      have hres := innerLoop_counter_le N hN trace st hst r hr
      cases r with
      | finished st1 =>
        have h' : some st1 = some st' := h
        cases h'
        exact hres
      | ok st1 rest =>
        exact ih st1 rest hres st' h

theorem generate_dataset_split_window_le (max_api_calls : Option Int) :
    ∀ (n : Nat) (st : GenState) (trace : List ApiOutcome),
      st.recent_10_generated_examples.length ≤ 10 →
      ∀ st', generate_dataset_split max_api_calls n st trace = some st' →
        st'.recent_10_generated_examples.length ≤ 10 := by
  intro n
  induction n with
  | zero =>
    intro st trace hst st' h
    cases h
    exact hst
  | succ n ih =>
    intro st trace hst st' h
    rw [generate_dataset_split] at h
    cases hr : innerLoop max_api_calls st trace with
    | none => rw [hr] at h; cases h
    | some r =>
      rw [hr] at h
      have hres := innerLoop_window_le max_api_calls trace st hst r hr
      cases r with
      | finished st1 =>
        have h' : some st1 = some st' := h
        cases h'
        exact hres
      | ok st1 rest =>
        exact ih st1 rest hres st' h

theorem length_filter_mono {p q : Nat → Bool} (h : ∀ a, p a = true → q a = true) :
    ∀ l : List Nat, (l.filter p).length ≤ (l.filter q).length := by
  intro l
  induction l with
  | nil => simp
  | cons x rest ih =>
    by_cases hp : p x = true
    · rw [List.filter_cons_of_pos hp, List.filter_cons_of_pos (h x hp)]
      simpa using ih
    · rw [List.filter_cons_of_neg (by simpa using hp)]
      by_cases hq : q x = true
      · rw [List.filter_cons_of_pos hq]
        exact Nat.le_trans ih (Nat.le_succ _)
      · rw [List.filter_cons_of_neg (by simpa using hq)]
        exact ih

theorem length_filter_eq_le_one (idx : Nat) :
    ∀ l : List Nat, l.Nodup → (l.filter (fun i => decide (i = idx))).length ≤ 1 := by
  intro l
  induction l with
  | nil => simp
  | cons x rest ih =>
    intro hl
    have hx := (List.nodup_cons.mp hl).1
    have hrest := (List.nodup_cons.mp hl).2
    by_cases hxi : x = idx
    · subst hxi
      rw [List.filter_cons_of_pos (by simp)]
      have hnil : rest.filter (fun i => decide (i = x)) = [] := by
        rw [List.filter_eq_nil_iff]
        intro a ha
        simp only [decide_eq_true_eq]
        exact fun h => hx (h ▸ ha)
      simp [hnil]
    · rw [List.filter_cons_of_neg (by simpa using hxi)]
      exact ih hrest

theorem seedInsertions_le_one (len insertIdx : Nat) (few_shot_example_string : Option String) :
    seedInsertions len insertIdx few_shot_example_string ≤ 1 := by
  rw [seedInsertions]
  refine Nat.le_trans
    (length_filter_mono (p := fun i => decide (i = insertIdx) && fewShotValid few_shot_example_string)
      (q := fun i => decide (i = insertIdx)) ?_ (List.range len))
    (length_filter_eq_le_one insertIdx (List.range len) (List.nodup_range len))
  intro a ha
  exact (Bool.and_eq_true_iff.mp ha).1

/-! ### Claim theorems -/

/-- C1: Consensus reconciliation — for every raw-example list and every
input_text occurring in it, the reconciler emits for that input an
output_text drawn from that input's observed outputs, with the highest
occurrence count among them, and with the earliest first occurrence among
count-tied candidates; in particular the raw pairs
[(a,A),(a,A),(a,E),(a,D)] reconcile to [(a,A)]. -/
theorem c1_consensus_reconciliation (ex : List RawExample) (i : String)
    (hmem : i ∈ ex.map RawExample.input) :
    (∃ o, o ∈ outputsFor ex i
      ∧ RawExample.mk i o ∈ reconcile ex
      ∧ (∀ o', o' ∈ outputsFor ex i →
          countOcc (outputsFor ex i) o' ≤ countOcc (outputsFor ex i) o)
      ∧ (∀ o', o' ∈ outputsFor ex i →
          countOcc (outputsFor ex i) o' = countOcc (outputsFor ex i) o →
          firstIdx (outputsFor ex i) o ≤ firstIdx (outputsFor ex i) o'))
    ∧ reconcile [⟨"a", "A"⟩, ⟨"a", "A"⟩, ⟨"a", "E"⟩, ⟨"a", "D"⟩] = [⟨"a", "A"⟩] := by
  constructor
  · have hne := outputsFor_ne_nil ex i hmem
    obtain ⟨hcmem, hccount, htie⟩ := chooseOutput_spec (outputsFor ex i) hne
    refine ⟨chooseOutput (outputsFor ex i), hcmem, ?_, ?_, ?_⟩
    · have hi : i ∈ dedupFirst (ex.map RawExample.input) :=
        (mem_dedupFirst i _).mpr hmem
      exact List.mem_map.mpr ⟨i, hi, rfl⟩
    · intro o' ho'
      rw [hccount]
      exact countOcc_le_maxCount _ _ ho'
    · intro o' ho' heq
      exact htie o' ho' (by rw [heq, hccount])
  · decide

/-- C1 witness: the concrete majority-vote example. -/
theorem c1_consensus_reconciliation_witness :
    reconcile [⟨"a", "A"⟩, ⟨"a", "A"⟩, ⟨"a", "E"⟩, ⟨"a", "D"⟩] = [⟨"a", "A"⟩] :=
  (c1_consensus_reconciliation [⟨"a", "A"⟩, ⟨"a", "A"⟩, ⟨"a", "E"⟩, ⟨"a", "D"⟩] "a"
    (by decide)).2

/-- C2: Budget respect — for every run of generate_dataset_split constructed
with max_api_calls = N (N positive), the api_call_counter of the state at
the function's return point is at most N; moreover the budget check happens
before each dispatch: when the budget is already reached the inner loop
returns immediately, consuming no outcome, with whatever has been generated
so far. -/
theorem c2_budget_respect (N : Int) (n : Nat) (trace : List ApiOutcome) (st' : GenState)
    (hN : 0 < N)
    (hrun : generate_dataset_split (some N) n initState trace = some st') :
    (st'.api_call_counter : Int) ≤ N
    ∧ (∀ (st : GenState) (tr : List ApiOutcome),
        budgetReached (some N) st.api_call_counter = true →
        innerLoop (some N) st tr = some (InnerRes.finished st)) := by
  refine ⟨generate_dataset_split_counter_le N hN n initState trace ?_ st' hrun,
    fun st tr h => innerLoop_of_budget _ st tr h⟩
  simp only [initState]
  omega

/-- C2 witness: a run with budget 1 that stops after one call. -/
theorem c2_budget_respect_witness :
    (((⟨1, ["a"], ["b"], [⟨"a", "b"⟩]⟩ : GenState).api_call_counter : Int) ≤ 1) :=
  (c2_budget_respect 1 1 [ApiOutcome.success "a" "b"] ⟨1, ["a"], ["b"], [⟨"a", "b"⟩]⟩
    (by decide) (by decide)).1

/-- C3: Deduplication postcondition — with filtering enabled the reconciled
dataset carries exactly the distinct inputs of the raw list, in first-seen
order, without duplicates, with equal distinct-input counts, and the empty
raw list yields the empty dataset. -/
theorem c3_dedup_postcondition (ex : List RawExample) :
    (convert_generated_examples_to_generated_dataset true ex).map RawExample.input
        = dedupFirst (ex.map RawExample.input)
    ∧ ((convert_generated_examples_to_generated_dataset true ex).map RawExample.input).Nodup
    ∧ ((convert_generated_examples_to_generated_dataset true ex).map RawExample.input).length
        = (dedupFirst (ex.map RawExample.input)).length
    ∧ convert_generated_examples_to_generated_dataset true ([] : List RawExample) = [] := by
  have hconv : convert_generated_examples_to_generated_dataset true ex = reconcile ex := rfl
  refine ⟨?_, ?_, ?_, rfl⟩
  · rw [hconv]; exact reconcile_map_input ex
  · rw [hconv, reconcile_map_input]; exact nodup_dedupFirst _
  · rw [hconv, reconcile_map_input]

/-- C4 counterexample: a run with one retryable failure followed by one
success, generating a single example, charges the api_call_counter twice —
the retry passes through the increment again — where the claim as stated
(the retry is not charged a second time) would give a final counter of 1. -/
theorem c4_retry_counterexample :
    (generate_dataset_split none 1 initState
        [ApiOutcome.retryableError, ApiOutcome.success "x" "y"]).map GenState.api_call_counter
      = some 2
    ∧ (generate_dataset_split none 1 initState
        [ApiOutcome.retryableError, ApiOutcome.success "x" "y"]).map GenState.api_call_counter
      ≠ some 1 := by
  constructor
  · decide
  · decide

/-- C4 amended: on a retryable failure the error is caught and
handle_openai_error returns api_call_counter unchanged (no extra increment
inside the handler), and the loop then retries from the top with the
counter incremented once more for the fresh attempt — each retry attempt is
charged as one additional API call, after re-checking the budget. -/
theorem c4_retry_amended (max_api_calls : Option Int) (st : GenState)
    (rest : List ApiOutcome)
    (h : budgetReached max_api_calls st.api_call_counter = false) :
    handle_openai_error st.api_call_counter = st.api_call_counter
    ∧ innerLoop max_api_calls st (ApiOutcome.retryableError :: rest)
        = innerLoop max_api_calls
            { st with api_call_counter := st.api_call_counter + 1 } rest := by
  refine ⟨rfl, ?_⟩
  have hstep : innerLoop max_api_calls st (ApiOutcome.retryableError :: rest)
      = if budgetReached max_api_calls st.api_call_counter then
          some (InnerRes.finished st)
        else innerLoop max_api_calls
          { st with api_call_counter := st.api_call_counter + 1 } rest := rfl
  rw [hstep, if_neg (by simp [h])]

/-- C4 amended witness: one retry step from the initial state. -/
theorem c4_retry_amended_witness :
    handle_openai_error initState.api_call_counter = initState.api_call_counter
    ∧ innerLoop none initState (ApiOutcome.retryableError :: [])
        = innerLoop none
            { initState with api_call_counter := initState.api_call_counter + 1 } [] :=
  c4_retry_amended none initState [] (by decide)

/-- C5 counterexample: extract_response does not map failures to a
sentinel — on malformed JSON it propagates the decode error, and on a body
missing the output key (the wrong-key mock of the test suite) it raises the
assertion — instead of returning a ParseFailure value. -/
theorem c5_parser_counterexample :
    extract_response Content.malformed = Except.error ExtractError.jsonDecodeError
    ∧ extract_response (Content.obj
        [("input", JVal.str "This is a great movie!"), ("label", JVal.str "1")])
      = Except.error ExtractError.assertionError := by
  exact ⟨rfl, rfl⟩

/-- C5 amended: response_mining maps malformed syntax, an unparseable label
value, a missing comment field and a falsy extracted comment to the sentinel
("", -1) without raising; extract_response instead raises — the
JSONDecodeError is re-raised on malformed syntax and an AssertionError is
raised on a missing input/output key — and performs no empty-value check. -/
theorem c5_parser_amended :
    (∀ kvs, missing_keys kvs ≠ [] →
      extract_response (Content.obj kvs) = Except.error ExtractError.assertionError)
    ∧ extract_response Content.malformed = Except.error ExtractError.jsonDecodeError
    ∧ response_mining Content.malformed = (JVal.str "", -1)
    ∧ (∀ kvs, mining_loop kvs none (-1) = Except.error () →
        response_mining (Content.obj kvs) = (JVal.str "", -1))
    ∧ (∀ kvs l, mining_loop kvs none (-1) = Except.ok (none, l) →
        response_mining (Content.obj kvs) = (JVal.str "", -1))
    ∧ (∀ kvs g l, mining_loop kvs none (-1) = Except.ok (some g, l) →
        pyTruthy g = false →
        response_mining (Content.obj kvs) = (JVal.str "", -1)) := by
  refine ⟨?_, rfl, rfl, ?_, ?_, ?_⟩
  · intro kvs h
    have hobj : extract_response (Content.obj kvs)
        = if missing_keys kvs = [] then
            Except.ok ((jvalToString (lookupKey kvs "input")).trim,
              (jvalToString (lookupKey kvs "output")).trim)
          else Except.error ExtractError.assertionError := rfl
    rw [hobj, if_neg h]
  · intro kvs h
    simp only [response_mining]
    rw [h]
  · intro kvs l h
    simp only [response_mining]
    rw [h]
  · intro kvs g l h htruthy
    simp only [response_mining]
    rw [h]
    simp [htruthy]

/-- C5 amended witness: a body with only an input key hits the assertion. -/
theorem c5_parser_amended_witness :
    extract_response (Content.obj [("input", JVal.str "x")])
      = Except.error ExtractError.assertionError :=
  c5_parser_amended.1 [("input", JVal.str "x")] (by decide)

/-- C6: Resumability round-trip — saving the raw-example list and loading it
into a fresh controller reproduces the identical InputOutputMap and the
identical reconciled dataset, and when the loaded examples already meet the
target count the loop exits with zero API calls dispatched. -/
theorem c6_resumability (raw_examples : List RawExample) (expected_num_examples : Nat)
    (max_api_calls : Option Int) (trace : List (List RawExample))
    (htarget : expected_num_examples ≤ (reconcile raw_examples).length) :
    specFilterLoop expected_num_examples max_api_calls trace
        ⟨cacheLoad (cacheSave raw_examples), 0⟩
      = some (reconcile raw_examples, ⟨raw_examples, 0⟩)
    ∧ construct_input_output_map (cacheLoad (cacheSave raw_examples))
        = construct_input_output_map raw_examples
    ∧ reconcile (cacheLoad (cacheSave raw_examples)) = reconcile raw_examples := by
  refine ⟨?_, rfl, rfl⟩
  cases trace with
  | nil => simp [specFilterLoop, cacheLoad, cacheSave, htarget]
  | cons batch rest => simp [specFilterLoop, cacheLoad, cacheSave, htarget]

/-- C6 witness: one cached example with target 1 loads with no API call. -/
theorem c6_resumability_witness :
    specFilterLoop 1 none [] ⟨cacheLoad (cacheSave [⟨"1", "a"⟩]), 0⟩
      = some (reconcile [⟨"1", "a"⟩], ⟨[⟨"1", "a"⟩], 0⟩) :=
  (c6_resumability [⟨"1", "a"⟩] 1 none [] (by decide)).1

/-- C7: Bounded FIFO context window — at the return point of every run the
window holds at most 10 entries; each parsed example is appended at the
back, the front entry is evicted exactly when the window already holds 10,
and the update preserves the bound. -/
theorem c7_window_bounded (max_api_calls : Option Int) (n : Nat)
    (trace : List ApiOutcome) (st' : GenState)
    (hrun : generate_dataset_split max_api_calls n initState trace = some st') :
    st'.recent_10_generated_examples.length ≤ 10
    ∧ (∀ w e, w.length < 10 → updateWindow w e = w ++ [e])
    ∧ (∀ w e, w.length = 10 → updateWindow w e = w.drop 1 ++ [e])
    ∧ (∀ w e, w.length ≤ 10 → (updateWindow w e).length ≤ 10) := by
  refine ⟨generate_dataset_split_window_le max_api_calls n initState trace
      (by simp [initState]) st' hrun,
    ?_, ?_, fun w e h => updateWindow_length_le w e h⟩
  · intro w e h
    rw [updateWindow, if_neg (Nat.ne_of_lt h)]
  · intro w e h
    rw [updateWindow, if_pos h]

/-- C7 witness: a one-example run keeps the window within the bound. -/
theorem c7_window_bounded_witness :
    ([⟨"a", "b"⟩] : List RawExample).length ≤ 10 :=
  (c7_window_bounded none 1 [ApiOutcome.success "a" "b"]
    ⟨1, ["a"], ["b"], [⟨"a", "b"⟩]⟩ (by decide)).1

/-- C8 counterexample: constructing the generator with a valid key and
max_api_calls = 0 succeeds — the value 0 is falsy, skips the assertion and
is stored — whereas the claim requires every max_api_calls ≤ 0 to be
rejected at construction. -/
theorem c8_config_counterexample :
    openai_dataset_generator_init (some "fake_api_key") none (some 0)
      = Except.ok ⟨"fake_api_key", some 0⟩ := by
  rfl

/-- C8 amended: an empty resolved credential fails the constructor assertion
and an absent environment credential raises a KeyError from the environment
lookup; a negative max_api_calls is rejected by the assertion; but
max_api_calls = 0 passes the falsy truthiness check, is accepted, and is
treated downstream as no budget at all. -/
theorem c8_config_amended :
    (∀ m : Option Int,
      openai_dataset_generator_init none none m = Except.error InitError.keyError)
    ∧ (∀ m : Option Int,
      openai_dataset_generator_init (some "") none m = Except.error InitError.keyError)
    ∧ (∀ m : Option Int,
      openai_dataset_generator_init none (some "") m = Except.error InitError.assertionError)
    ∧ (∀ (k env : Option String) (m : Int), m < 0 →
        ∀ cfg, openai_dataset_generator_init k env (some m) ≠ Except.ok cfg)
    ∧ (∀ (key : String) (env : Option String), key ≠ "" →
        openai_dataset_generator_init (some key) env (some 0) = Except.ok ⟨key, some 0⟩)
    ∧ (∀ c : Nat, budgetReached (some 0) c = false) := by
  refine ⟨fun m => rfl, fun m => rfl, fun m => rfl, ?_, ?_, fun c => rfl⟩
  · intro k env m hm cfg
    have hne : m ≠ 0 := by omega
    have hngt : ¬ m > 0 := by omega
    rcases k with _ | s
    · rcases env with _ | e
      · simp [openai_dataset_generator_init, pyTruthyStr]
      · by_cases he : e = ""
        · simp [openai_dataset_generator_init, pyTruthyStr, he]
        · simp [openai_dataset_generator_init, pyTruthyStr, he, hne, hngt]
    · by_cases hs : s = ""
      · rcases env with _ | e
        · simp [openai_dataset_generator_init, pyTruthyStr, hs]
        · by_cases he : e = ""
          · simp [openai_dataset_generator_init, pyTruthyStr, hs, he]
          · simp [openai_dataset_generator_init, pyTruthyStr, hs, he, hne, hngt]
      · simp [openai_dataset_generator_init, pyTruthyStr, hs, hne, hngt]
  · intro key env hkey
    simp [openai_dataset_generator_init, pyTruthyStr, hkey]

/-- C8 amended witness: a valid key with max_api_calls = 0 constructs. -/
theorem c8_config_amended_witness :
    openai_dataset_generator_init (some "key") none (some 0)
      = Except.ok ⟨"key", some 0⟩ :=
  c8_config_amended.2.2.2.2.1 "key" none (by decide)

/-- C9: a response whose mining loop completes with pseudo_label 0 yields the
sentinel ("", -1) rather than the (comment, 0) pair — the success check
tests the integer's truthiness — and no successful return of
response_mining ever carries label 0. -/
theorem c9_zero_label (kvs : List (String × JVal)) (g : Option JVal)
    (h : mining_loop kvs none (-1) = Except.ok (g, 0)) :
    response_mining (Content.obj kvs) = (JVal.str "", -1)
    ∧ (∀ c : Content, (response_mining c).2 ≠ 0)
    ∧ response_mining (Content.obj
        [("comment", JVal.str "This movie is bad!"), ("label", JVal.int 0)])
      = (JVal.str "", -1) := by
  refine ⟨?_, ?_, by decide⟩
  · simp only [response_mining]
    rw [h]
    cases g with
    | none => rfl
    | some gv => simp
  · intro c
    cases c with
    | malformed => simp [response_mining]
    | obj kvs2 =>
      simp only [response_mining]
      cases hml : mining_loop kvs2 none (-1) with
      | error e => simp
      | ok p =>
        obtain ⟨g2, l2⟩ := p
        cases g2 with
        | none => simp
        | some gv =>
          by_cases hp : pyTruthy gv = true
          · by_cases hl : l2 = 0
            · simp [hp, hl]
            · simp [hp, hl]
          · simp [hp]

/-- C9 witness: a concrete negative-class body is rejected. -/
theorem c9_zero_label_witness :
    response_mining (Content.obj [("comment", JVal.str "bad"), ("label", JVal.int 0)])
      = (JVal.str "", -1) :=
  (c9_zero_label [("comment", JVal.str "bad"), ("label", JVal.int 0)]
    (some (JVal.str "bad")) rfl).1

/-- C10: generate_prompt is total over its reachable states — for every
window of length at most 10 and every seed, with the random draws inside the
ranges the library guarantees (empty window, or a sample count between 1 and
the window length, a sample of exactly that size, and an insertion index
below it), a prompt is returned; and the seed is spliced into the context at
most once. -/
theorem c10_prompt_total (instruction : String) (few_shot_example_string : Option String)
    (window : List RawExample) (num : Nat) (sample : List RawExample) (insertIdx : Nat)
    (_hwin : window.length ≤ 10)
    (hdraws : window.length = 0 ∨
      (1 ≤ num ∧ num ≤ window.length ∧ sample.length = num ∧ insertIdx + 1 ≤ num)) :
    (∃ p, generate_prompt instruction few_shot_example_string window num sample insertIdx
        = some p)
    ∧ seedInsertions sample.length insertIdx few_shot_example_string ≤ 1 := by
  refine ⟨Option.isSome_iff_exists.mp ?_, seedInsertions_le_one _ _ _⟩
  unfold generate_prompt
  rcases hdraws with h0 | ⟨h1, h2, h3, _h4⟩
  · rw [if_pos h0]
    rfl
  · rw [if_neg (by omega), if_neg (by omega), if_neg (by omega), if_neg (by omega)]
    rfl

/-- C10 witness: a singleton window with one sampled example. -/
theorem c10_prompt_total_witness :
    (generate_prompt "inst" (some "seed") [⟨"i", "o"⟩] 1 [⟨"i", "o"⟩] 0).isSome = true :=
  Option.isSome_iff_exists.mpr
    (c10_prompt_total "inst" (some "seed") [⟨"i", "o"⟩] 1 [⟨"i", "o"⟩] 0
      (by decide) (Or.inr (by decide))).1

end PromptDistill
